import Mathlib

/-!
Shallow embedding of the Telegram notification manager
(`internal/notifications/manager.go` of AdGuardHome).

Modelling conventions:
* Go strings are `List Char`.
* Go `float64` metric values and thresholds are idealized as `ℚ`; the special
  values NaN / ±Inf handled by the percentage formatter are captured by the
  wrapper type `GoFloat`.
* Go `time.Time` / `time.Duration` are `ℤ` (nanoseconds); the zero `time.Time`
  returned for a missing map entry is the integer `0`.
* The two Go maps `lastSent` and `alertActive` are functions into `Option`,
  `none` meaning "no entry"; `delete` sets the entry to `none`, and a map read
  `m[k]` is `(f k).getD default` as in Go.
* Network delivery is abstracted by a boolean outcome parameter; the number of
  delivery attempts made by an operation is returned alongside the new state.
-/

set_option maxRecDepth 100000

namespace Notifications

/-- ASCII whitespace recognized by Go `strings.TrimSpace` (the Unicode cases
are irrelevant to the messages at hand). -/
def goIsSpace (c : Char) : Bool :=
  c == ' ' || c == '\t' || c == '\n' || c == '\x0b' || c == '\x0c' || c == '\r'

/-- Go `strings.TrimSpace` on byte strings. -/
def trimSpace (s : List Char) : List Char :=
  ((s.dropWhile goIsSpace).reverse.dropWhile goIsSpace).reverse

/-- Go `strings.TrimRight(s, "0")`: drop trailing '0' characters. -/
def trimRightZeros (s : List Char) : List Char :=
  (s.reverse.dropWhile (fun c => c == '0')).reverse

/-- Go `strings.TrimSuffix(s, ".")`: drop one trailing dot if present. -/
def trimSuffixDot (s : List Char) : List Char :=
  if s.getLast? = some '.' then s.dropLast else s

/-- Decimal rendering of a natural number, as a character list. -/
def natRepr (n : ℕ) : List Char := (Nat.repr n).toList

/-- Go `strings.Join(lines, "\n")`. -/
def joinLines (lines : List (List Char)) : List Char :=
  List.intercalate ['\n'] lines

/-- Go `float64` values as far as the formatting helpers distinguish them:
NaN, signed infinity, or an (idealized, exact) finite value. -/
inductive GoFloat where
  | nan : GoFloat
  | inf (neg : Bool) : GoFloat
  | finite (q : ℚ) : GoFloat

/-- Go `fmt.Sprintf("%.1f", v)` for a finite value: sign, integer part, one
decimal digit, rounding to nearest with ties to even.  Computed directly on
the numerator/denominator with integer arithmetic. -/
def sprintfDot1 (q : ℚ) : List Char :=
  let n : ℕ := q.num.natAbs
  let d : ℕ := q.den
  let t : ℕ := 10 * n
  let f : ℕ := t / d
  let r2 : ℕ := 2 * (t % d)
  let m : ℕ := if r2 < d then f else if d < r2 then f + 1 else if f % 2 = 0 then f else f + 1
  (if q < 0 then ['-'] else []) ++ natRepr (m / 10) ++ '.' :: natRepr (m % 10)

/-- Go `formatFloat`: render with one decimal place, strip trailing zeros and
a trailing decimal point, falling back to "0" for the empty result. -/
def formatFloat (v : ℚ) : List Char :=
  let formatted := trimSuffixDot (trimRightZeros (sprintfDot1 v))
  if formatted = [] then ['0'] else formatted

/-- Go `formatPercentage`: NaN/Inf give a dash, negatives are clamped to 0,
and the result of `formatFloat` is suffixed with a percent sign. -/
def formatPercentage (value : GoFloat) : List Char :=
  match value with
  | .nan => "-".toList
  | .inf _ => "-".toList
  | .finite q => formatFloat (if q < 0 then 0 else q) ++ "%".toList

/-- Loop body of Go `formatIntegerString`: split off groups of three digits
from the right and join them with commas.  The fuel argument bounds the loop
by the length of the string. -/
def commaGroupGo : ℕ → List Char → List Char
  | 0, s => s
  | fuel + 1, s =>
    if s.length ≤ 3 then s
    else commaGroupGo fuel (s.take (s.length - 3)) ++ ',' :: s.drop (s.length - 3)

/-- Go `formatIntegerString`: decimal digit string with thousands separators
and an optional leading minus sign. -/
def formatIntegerString (s : List Char) (negative : Bool) : List Char :=
  let grouped := commaGroupGo s.length s
  if negative then '-' :: grouped else grouped

/-- Go `formatInt64`. -/
def formatInt64 (val : ℤ) : List Char :=
  formatIntegerString (natRepr val.natAbs) (val < 0)

/-- Go `formatUint64`. -/
def formatUint64 (val : ℕ) : List Char :=
  formatIntegerString (natRepr val) false

/-- Go `byteUnits`. -/
def byteUnits : List (List Char) :=
  ["B".toList, "KB".toList, "MB".toList, "GB".toList, "TB".toList, "PB".toList]

/-- Loop of Go `chooseUnit`; the fuel bounds the loop, which Go bounds by
`idx < len(byteUnits)-1`. -/
def chooseUnitGo : ℕ → ℕ → ℕ → ℕ
  | 0, _, idx => idx
  | fuel + 1, value, idx =>
    if 1024 ≤ value ∧ idx < byteUnits.length - 1 then chooseUnitGo fuel (value / 1024) (idx + 1)
    else idx

/-- Go `chooseUnit`. -/
def chooseUnit (value : ℕ) : ℕ := chooseUnitGo (byteUnits.length) value 0

/-- Go `formatBytesWithUnit`: value scaled by 1024^idx, one-decimal format for
the scaled units (the Go float division is idealized as exact division). -/
def formatBytesWithUnit (value : ℕ) (idx : ℕ) : List Char :=
  let idx := if byteUnits.length ≤ idx then byteUnits.length - 1 else idx
  let unit := byteUnits.getD idx []
  if idx = 0 then formatInt64 value ++ ' ' :: unit
  else formatFloat (mkRat value (1024 ^ idx)) ++ ' ' :: unit

/-- Go `formatBytesUint`. -/
def formatBytesUint (value : ℕ) : List Char :=
  formatBytesWithUnit value (chooseUnit value)

/-- Go `formatUsage`. -/
def formatUsage (used total : ℕ) (usage : GoFloat) : List Char :=
  if total = 0 then "-".toList
  else
    let idx := chooseUnit total
    formatBytesWithUnit used idx ++ " / ".toList ++ formatBytesWithUnit total idx
      ++ " (".toList ++ formatPercentage usage ++ ")".toList

/-- Go `formatCapacity`. -/
def formatCapacity (current total : ℕ) : List Char :=
  if total = 0 then "-".toList
  else
    let idx := chooseUnit total
    formatBytesWithUnit current idx ++ " / ".toList ++ formatBytesWithUnit total idx

/-- Go `fallbackString`. -/
def fallbackString (val : List Char) : List Char :=
  let val := trimSpace val
  if val = [] then "-".toList else val

/-- Go `formatLocalIPs`. -/
def formatLocalIPs (ips : List (List Char)) : List Char :=
  if ips = [] then "-".toList else List.intercalate ", ".toList ips

/-- Go `formatUptime`. -/
def formatUptime (seconds : ℕ) : List Char :=
  if seconds = 0 then []
  else
    let d := seconds / 86400
    let h := (seconds % 86400) / 3600
    let m := (seconds % 3600) / 60
    let parts : List (List Char) := if 0 < d then [natRepr d ++ "d".toList] else []
    let parts := if 0 < h ∨ parts ≠ [] then parts ++ [natRepr h ++ "h".toList] else parts
    let parts := parts ++ [natRepr m ++ "m".toList]
    List.intercalate " ".toList parts

/-- The fields of `systeminfo.Info` used by the notification manager. -/
structure Info where
  hostname : List Char
  os : List Char
  osVersion : List Char
  arch : List Char
  cpuModel : List Char
  numCPU : ℤ
  cpuUsage : GoFloat
  memoryUsage : GoFloat
  diskUsage : GoFloat
  memoryUsed : ℕ
  memoryTotal : ℕ
  memoryFree : ℕ
  diskUsed : ℕ
  diskTotal : ℕ
  diskFree : ℕ
  diskPath : List Char
  localIPs : List (List Char)
  publicIP : List Char
  uptimeSeconds : ℕ

/-- Go `formatOS`. -/
def formatOS (info : Info) : List Char :=
  let osLine := trimSpace info.osVersion
  let osLine := if osLine = [] then trimSpace info.os else osLine
  let osLine := if osLine = [] then "-".toList else osLine
  let arch := trimSpace info.arch
  if arch ≠ [] then osLine ++ " (".toList ++ arch ++ ")".toList else osLine

/-- Go `formatCPU`. -/
def formatCPU (info : Info) : List Char :=
  let name := trimSpace info.cpuModel
  let name := if name = [] then "Unknown CPU".toList else name
  if 0 < info.numCPU then
    name ++ " (".toList ++ formatInt64 info.numCPU ++ " cores)".toList
  else name

/-- Go `systemOverviewLines`. -/
def systemOverviewLines (info : Info) : List (List Char) :=
  let uptime := formatUptime info.uptimeSeconds
  let uptime := if uptime = [] then "-".toList else uptime
  ["🖥️ System Overview".toList,
   "🏷️ Hostname: ".toList ++ fallbackString info.hostname,
   "💻 OS: ".toList ++ formatOS info,
   "🧠 CPU: ".toList ++ formatCPU info,
   "🔥 CPU Usage: ".toList ++ formatPercentage info.cpuUsage,
   "🗃️ Memory Usage: ".toList ++ formatUsage info.memoryUsed info.memoryTotal info.memoryUsage,
   "📟 Memory Free: ".toList ++ formatCapacity info.memoryFree info.memoryTotal,
   "💽 Disk Usage: ".toList ++ formatUsage info.diskUsed info.diskTotal info.diskUsage,
   "📂 Disk Free: ".toList ++ formatCapacity info.diskFree info.diskTotal,
   "📁 Disk Path: ".toList ++ fallbackString info.diskPath,
   "🌐 Local IPs: ".toList ++ formatLocalIPs info.localIPs,
   "🛰️ Public IP: ".toList ++ fallbackString info.publicIP,
   "⏱️ Uptime: ".toList ++ uptime]

/-- Go `metricDisplayName`. -/
def metricDisplayName (metric : List Char) : List Char :=
  let low := metric.map Char.toLower
  if low = "cpu".toList then "CPU usage".toList
  else if low = "memory".toList then "Memory usage".toList
  else if low = "disk".toList then "Disk usage".toList
  else
    match metric with
    | [] => "Metric".toList
    | c :: rest => Char.toUpper c :: rest.map Char.toLower

/-- Go `alertHeadline`. -/
def alertHeadline (metric : List Char) : List Char :=
  metricDisplayName metric ++ " exceeded threshold".toList

/-- Go `telegramMaxMessageLen`. -/
def telegramMaxMessageLen : ℕ := 4096

/-- Go `defaultCheckInterval` (one minute, in nanoseconds). -/
def defaultCheckInterval : ℤ := 60000000000

/-- Go `defaultCooldown` (one minute, in nanoseconds). -/
def defaultCooldown : ℤ := 60000000000

/-- Go `resetFactor`. -/
def resetFactor : ℚ := 9 / 10

/-- Go `TelegramConfig`. -/
structure TelegramConfig where
  enabled : Bool
  botToken : List Char
  chatID : List Char
  cpuThreshold : ℚ
  memoryThreshold : ℚ
  diskThreshold : ℚ
  checkInterval : ℤ
  cooldown : ℤ
  customMessage : List Char

/-- Go `composeAlertMessage`. -/
def composeAlertMessage (cfg : TelegramConfig) (metric : List Char)
    (value threshold : GoFloat) (info : Info) : List Char :=
  let head := trimSpace cfg.customMessage
  let lines : List (List Char) := if head ≠ [] then [head] else []
  let lines := lines ++
    ["🚨 Alert: ".toList ++ alertHeadline metric,
     [],
     "📈 Metrics".toList,
     "📍 Metric: ".toList ++ metricDisplayName metric,
     "🔥 Current: ".toList ++ formatPercentage value,
     "🎯 Threshold: ".toList ++ formatPercentage threshold,
     []]
  joinLines (lines ++ systemOverviewLines info)

/-- The mutable per-metric alert state of Go `Manager` plus the current
configuration; the delivery client, logger and loop plumbing carry no state
the claims depend on. -/
structure Manager where
  telegram : TelegramConfig
  lastSent : List Char → Option ℤ
  alertActive : List Char → Option Bool

/-- Go `Manager.metricState`: map reads default to `false` / the zero time. -/
def metricState (m : Manager) (metric : List Char) : Bool × ℤ :=
  ((m.alertActive metric).getD false, (m.lastSent metric).getD 0)

/-- Go `Manager.updateMetricState`: an activation stores `true` and the
timestamp; a deactivation deletes the `alertActive` entry (and only it). -/
def updateMetricState (m : Manager) (metric : List Char) (active : Bool) (ts : ℤ) : Manager :=
  if active then
    { m with
      alertActive := fun k => if k = metric then some true else m.alertActive k,
      lastSent := fun k => if k = metric then some ts else m.lastSent k }
  else
    { m with alertActive := fun k => if k = metric then none else m.alertActive k }

/-- Go `Manager.clearAlert`. -/
def clearAlert (m : Manager) (metric : List Char) : Manager :=
  updateMetricState m metric false 0

/-- Go `normalizeTelegramConfig`. -/
def normalizeTelegramConfig (cfg : TelegramConfig) : TelegramConfig :=
  let cfg := if cfg.checkInterval ≤ 0 then { cfg with checkInterval := defaultCheckInterval } else cfg
  if cfg.cooldown ≤ 0 then { cfg with cooldown := defaultCooldown } else cfg

/-- Go `Manager.UpdateTelegramConfig`: swap in the normalized configuration
and, when it is disabled, reset `alertActive` to a fresh empty map. -/
def UpdateTelegramConfig (m : Manager) (cfg : TelegramConfig) : Manager :=
  let cfg := normalizeTelegramConfig cfg
  { m with
    telegram := cfg,
    alertActive := if cfg.enabled then m.alertActive else fun _ => none }

/-- Go `Manager.handleMetric`.  The wall-clock reading is the parameter `now`
and the outcome of the one possible delivery attempt is the parameter
`deliverOk`; the result pairs the new state with the number of delivery
attempts made. -/
def handleMetric (m : Manager) (cfg : TelegramConfig) (metric : List Char)
    (value threshold : ℚ) (now : ℤ) (deliverOk : Bool) : Manager × ℕ :=
  if threshold ≤ 0 ∨ value ≤ 0 then (clearAlert m metric, 0)
  else
    let st := metricState m metric
    let cooldown := if cfg.cooldown ≤ 0 then defaultCooldown else cfg.cooldown
    if threshold ≤ value then
      if st.1 = false ∧ cooldown ≤ now - st.2 then
        if deliverOk then (updateMetricState m metric true now, 1) else (m, 1)
      else (m, 0)
    else
      if st.1 = true ∧ value < threshold * resetFactor then (clearAlert m metric, 0)
      else (m, 0)

/-- Iterated `handleMetric` over a sequence of check ticks, each tick carrying
the sampled value, the wall-clock time and the delivery outcome; the second
component accumulates the delivery attempts. -/
def handleMetricSeq (m : Manager) (cfg : TelegramConfig) (metric : List Char)
    (threshold : ℚ) : List (ℚ × ℤ × Bool) → Manager × ℕ
  | [] => (m, 0)
  | (v, now, ok) :: rest =>
    let step := handleMetric m cfg metric v threshold now ok
    let tail := handleMetricSeq step.1 cfg metric threshold rest
    (tail.1, step.2 + tail.2)

/-- Go `Manager.runCheck`: guard on enabled/credentials, then handle the three
metrics in order.  The sampled usages and the three delivery outcomes are
parameters standing for `systeminfo.Collect` and the network. -/
def runCheck (m : Manager) (cpu memory disk : ℚ) (now : ℤ)
    (d1 d2 d3 : Bool) : Manager × ℕ :=
  let cfg := m.telegram
  if cfg.enabled = false ∨ cfg.botToken = [] ∨ cfg.chatID = [] then (m, 0)
  else
    let s1 := handleMetric m cfg ("cpu".toList) cpu cfg.cpuThreshold now d1
    let s2 := handleMetric s1.1 cfg ("memory".toList) memory cfg.memoryThreshold now d2
    let s3 := handleMetric s2.1 cfg ("disk".toList) disk cfg.diskThreshold now d3
    (s3.1, s1.2 + s2.2 + s3.2)

/-- Go `Manager.SendTelegramTest` up to the point of delivery: `Except.error`
is the early return for incomplete credentials; `Except.ok msg` records that
`sendTelegram` was invoked with message `msg`. -/
def SendTelegramTest (m : Manager) (message : List Char) : Except (List Char) (List Char) :=
  let cfg := m.telegram
  if cfg.botToken = [] ∨ cfg.chatID = [] then
    .error ("telegram configuration incomplete".toList)
  else
    let msg := trimSpace message
    let msg := if msg = [] then "AdGuard Home test notification".toList else msg
    .ok msg

/-- The message-preparation phase of Go `Manager.sendTelegram`: trim, drop the
send entirely when empty (`none`), truncate to `telegramMaxMessageLen`.  The
returned value is the `text` form field of the outbound request. -/
def sendTelegramText (message : List Char) : Option (List Char) :=
  let trimmed := trimSpace message
  if trimmed = [] then none
  else some (if telegramMaxMessageLen < trimmed.length
             then trimmed.take telegramMaxMessageLen else trimmed)

/-- Result of the response-handling phase of Go `Manager.sendTelegram`. -/
inductive SendOutcome where
  | success : SendOutcome
  | statusError (code : ℕ) (body : List Char) : SendOutcome
  | decodeError : SendOutcome
  | apiError (desc : List Char) : SendOutcome
deriving DecidableEq

/-- The response-handling phase of Go `Manager.sendTelegram`, starting from the
HTTP status code and the (truncated) response body.  `decode` stands for
`json.Unmarshal` into the `{ok, description}` envelope, returning `none` on a
decode failure; it is only consulted for a non-empty body, the envelope
otherwise keeping its zero value `(false, "")`. -/
def handleTelegramResponse (decode : List Char → Option (Bool × List Char))
    (status : ℕ) (body : List Char) : SendOutcome :=
  if status ≠ 200 then .statusError status (trimSpace body)
  else
    match (if 0 < body.length then decode body else some (false, [])) with
    | none => .decodeError
    | some (ok, desc) =>
      if ok = true then .success
      else
        let d := trimSpace desc
        let d := if d = [] then trimSpace body else d
        let d := if d = [] then "unknown telegram error".toList else d
        .apiError d

/-- A sample enabled configuration with complete credentials, used as concrete
input for witnesses. -/
def sampleConfig : TelegramConfig :=
  { enabled := true
    botToken := "token".toList
    chatID := "chat".toList
    cpuThreshold := 90
    memoryThreshold := 90
    diskThreshold := 90
    checkInterval := defaultCheckInterval
    cooldown := defaultCooldown
    customMessage := [] }

/-- The sample configuration with delivery disabled. -/
def sampleConfigDisabled : TelegramConfig := { sampleConfig with enabled := false }

/-- A system snapshot with empty/zero readings, used as concrete input. -/
def sampleInfo : Info :=
  { hostname := []
    os := []
    osVersion := []
    arch := []
    cpuModel := []
    numCPU := 0
    cpuUsage := .finite 0
    memoryUsage := .finite 0
    diskUsage := .finite 0
    memoryUsed := 0
    memoryTotal := 0
    memoryFree := 0
    diskUsed := 0
    diskTotal := 0
    diskFree := 0
    diskPath := []
    localIPs := []
    publicIP := []
    uptimeSeconds := 0 }

/-- A manager with no alert state at all. -/
def sampleManagerIdle : Manager :=
  { telegram := sampleConfig, lastSent := fun _ => none, alertActive := fun _ => none }

/-- A manager whose "cpu" metric is Active, with a last alert at time 5. -/
def sampleManagerActive : Manager :=
  { telegram := sampleConfig
    lastSent := fun k => if k = "cpu".toList then some 5 else none
    alertActive := fun k => if k = "cpu".toList then some true else none }

/-- The idle manager with delivery disabled in its configuration. -/
def sampleManagerDisabled : Manager :=
  { sampleManagerIdle with telegram := sampleConfigDisabled }

/-- A manager whose "cpu" alert has been cleared after a successful alert at
time 5: no `alertActive` entry, but a retained `lastSent` record. -/
def sampleManagerCleared : Manager :=
  { telegram := sampleConfig
    lastSent := fun k => if k = "cpu".toList then some 5 else none
    alertActive := fun _ => none }

/-- C1 counterexample: a 200 response with an empty body is NOT treated as
success — the zero-value envelope fails the `ok` check and `sendTelegram`
returns the generic "unknown telegram error" failure (the decoder is a
concrete stand-in; it is never consulted on the empty body). -/
theorem sendTelegram_status200_emptyBody_not_success :
    handleTelegramResponse (fun _ => none) 200 [] =
      .apiError ("unknown telegram error".toList) ∧
    handleTelegramResponse (fun _ => none) 200 [] ≠ .success := by
  decide

/-- C1 amended: on a 200 status with an empty body, `sendTelegram` performs no
JSON decoding (the result is the same for every decoder) but returns the
error "telegram api error: unknown telegram error" rather than success,
because the zero-value envelope has `ok = false`. -/
theorem sendTelegram_status200_emptyBody_returns_apiError
    (decode : List Char → Option (Bool × List Char)) :
    handleTelegramResponse decode 200 [] = .apiError ("unknown telegram error".toList) := rfl

/-- C1 amended, witness: even a decoder that would report `ok = true` is not
consulted on the empty body — the outcome is still the generic api error. -/
theorem sendTelegram_status200_emptyBody_returns_apiError_witness :
    handleTelegramResponse (fun _ => some (true, [])) 200 [] =
      .apiError ("unknown telegram error".toList) :=
  sendTelegram_status200_emptyBody_returns_apiError (fun _ => some (true, []))

/-- C2 counterexample: a manager whose "cpu" metric is Active with a last
alert at time 5; after `clearAlert` the `alertActive` entry is gone but the
last-alert timestamp is still recorded in `lastSent`, so a cleared metric does
retain a last-alert record. -/
theorem clearAlert_retains_lastSent_counterexample :
    sampleManagerActive.alertActive ("cpu".toList) = some true ∧
    (clearAlert sampleManagerActive ("cpu".toList)).alertActive ("cpu".toList) = none ∧
    (clearAlert sampleManagerActive ("cpu".toList)).lastSent ("cpu".toList) = some 5 := by
  decide

/-- C2 amended: clearing a metric (`clearAlert`, or `updateMetricState` with
`active = false`) removes the `alertActive` entry — so absence of an entry is
equivalent to "not active" — but leaves the `lastSent` map untouched: the
last-alert timestamp of a cleared metric is retained. -/
theorem clearAlert_removes_activeFlag_retains_lastSent
    (m : Manager) (metric : List Char) (ts : ℤ) :
    (updateMetricState m metric false ts).alertActive metric = none ∧
    (updateMetricState m metric false ts).lastSent = m.lastSent ∧
    (clearAlert m metric).alertActive metric = none ∧
    (clearAlert m metric).lastSent = m.lastSent := by
  refine ⟨?_, rfl, ?_, rfl⟩ <;> simp [clearAlert, updateMetricState]

/-- C2 amended, witness at a concrete manager and metric. -/
theorem clearAlert_removes_activeFlag_retains_lastSent_witness :
    (clearAlert sampleManagerIdle ("memory".toList)).alertActive ("memory".toList) = none ∧
    (clearAlert sampleManagerIdle ("memory".toList)).lastSent = sampleManagerIdle.lastSent := by
  have h := clearAlert_removes_activeFlag_retains_lastSent sampleManagerIdle ("memory".toList) 0
  exact ⟨h.2.2.1, h.2.2.2⟩

/-- C5: when the configuration is disabled or a credential is empty, a check
cycle returns the manager unchanged — no metric is evaluated, no delivery is
attempted, and in particular existing Active entries are not cleared. -/
theorem runCheck_guard_no_mutation (m : Manager) (cpu memory disk : ℚ) (now : ℤ)
    (d1 d2 d3 : Bool)
    (h : m.telegram.enabled = false ∨ m.telegram.botToken = [] ∨ m.telegram.chatID = []) :
    runCheck m cpu memory disk now d1 d2 d3 = (m, 0) ∧
    (runCheck m cpu memory disk now d1 d2 d3).1.alertActive = m.alertActive := by
  have hmain : runCheck m cpu memory disk now d1 d2 d3 = (m, 0) := by
    unfold runCheck
    rw [if_pos h]
  exact ⟨hmain, by rw [hmain]⟩

/-- C5 witness: a disabled manager is returned unchanged by `runCheck` even
with all metrics sampled far above their thresholds. -/
theorem runCheck_guard_no_mutation_witness :
    runCheck sampleManagerDisabled 95 95 95 0 true true true = (sampleManagerDisabled, 0) :=
  (runCheck_guard_no_mutation sampleManagerDisabled 95 95 95 0 true true true
    (Or.inl (by decide))).1

/-- Normalization only touches the interval and cooldown fields, never the
enabled flag. -/
theorem normalize_preserves_enabled (cfg : TelegramConfig) :
    (normalizeTelegramConfig cfg).enabled = cfg.enabled := by
  unfold normalizeTelegramConfig
  split <;> dsimp only <;> split <;> rfl

/-- C6: after replacing the configuration with one that has `Enabled = false`,
the alert-active map is empty: every metric reads `none`, whatever the prior
alert state was. -/
theorem updateTelegramConfig_disabled_wipes_alerts (m : Manager) (cfg : TelegramConfig)
    (h : cfg.enabled = false) (metric : List Char) :
    (UpdateTelegramConfig m cfg).alertActive metric = none := by
  unfold UpdateTelegramConfig
  have he := normalize_preserves_enabled cfg
  rw [h] at he
  simp [he]

/-- C6 witness: disabling the configuration wipes the Active "cpu" entry. -/
theorem updateTelegramConfig_disabled_wipes_alerts_witness :
    (UpdateTelegramConfig sampleManagerActive sampleConfigDisabled).alertActive
      ("cpu".toList) = none :=
  updateTelegramConfig_disabled_wipes_alerts sampleManagerActive sampleConfigDisabled
    (by decide) ("cpu".toList)

/-- C7: whenever `sendTelegram` actually transmits a text, that text is the
trimmed message truncated to exactly `telegramMaxMessageLen` (4096) units when
the trimmed message is longer than that, and the trimmed message unmodified
otherwise. -/
theorem sendTelegram_truncates_to_max_len (message text : List Char)
    (h : sendTelegramText message = some text) :
    (telegramMaxMessageLen < (trimSpace message).length →
      text = (trimSpace message).take telegramMaxMessageLen) ∧
    ((trimSpace message).length ≤ telegramMaxMessageLen → text = trimSpace message) := by
  unfold sendTelegramText at h
  by_cases he : trimSpace message = []
  · rw [if_pos he] at h
    exact absurd h (by simp)
  · rw [if_neg he] at h
    have h' := Option.some.inj h
    constructor
    · intro hlt
      rw [← h', if_pos hlt]
    · intro hle
      rw [← h', if_neg (not_lt.mpr hle)]

/-- C7 witness at a concrete short message with surrounding whitespace. -/
theorem sendTelegram_truncates_to_max_len_witness :
    (telegramMaxMessageLen < (trimSpace ("  hi  ".toList)).length →
      "hi".toList = (trimSpace ("  hi  ".toList)).take telegramMaxMessageLen) ∧
    ((trimSpace ("  hi  ".toList)).length ≤ telegramMaxMessageLen →
      "hi".toList = trimSpace ("  hi  ".toList)) :=
  sendTelegram_truncates_to_max_len ("  hi  ".toList) ("hi".toList) (by decide)

/-- C3: for a positive threshold and positive value with value ≥ threshold, a
metric that is not Active and whose cooldown has elapsed gets exactly one
delivery attempt; on success the metric becomes Active with `lastSent` set to
the attempt time, and on failure the state is left unchanged. -/
theorem handleMetric_inactive_crossing (m : Manager) (cfg : TelegramConfig)
    (metric : List Char) (value threshold : ℚ) (now : ℤ)
    (hthr : 0 < threshold) (hval : 0 < value) (hge : threshold ≤ value)
    (hact : (m.alertActive metric).getD false = false)
    (hcd : (if cfg.cooldown ≤ 0 then defaultCooldown else cfg.cooldown) ≤
      now - (m.lastSent metric).getD 0) :
    (∀ ok : Bool, (handleMetric m cfg metric value threshold now ok).2 = 1) ∧
    handleMetric m cfg metric value threshold now true = (updateMetricState m metric true now, 1) ∧
    (handleMetric m cfg metric value threshold now true).1.alertActive metric = some true ∧
    (handleMetric m cfg metric value threshold now true).1.lastSent metric = some now ∧
    handleMetric m cfg metric value threshold now false = (m, 1) := by
  have hguard : ¬(threshold ≤ 0 ∨ value ≤ 0) := by
    push_neg
    exact ⟨hthr, hval⟩
  have hstep : ∀ ok : Bool, handleMetric m cfg metric value threshold now ok =
      (if ok then (updateMetricState m metric true now, 1) else (m, 1)) := by
    intro ok
    unfold handleMetric
    rw [if_neg hguard]
    dsimp only [metricState]
    rw [if_pos hge, if_pos ⟨hact, hcd⟩]
  refine ⟨fun ok => ?_, ?_, ?_, ?_, ?_⟩
  · rw [hstep ok]
    cases ok <;> rfl
  · rw [hstep true]
    rfl
  · rw [hstep true]
    simp [updateMetricState]
  · rw [hstep true]
    simp [updateMetricState]
  · rw [hstep false]
    rfl

/-- C3 witness: an idle manager crossing the cpu threshold (value 95 over
threshold 90) at a time far past the cooldown records the alert time on
successful delivery. -/
theorem handleMetric_inactive_crossing_witness :
    (handleMetric sampleManagerIdle sampleConfig ("cpu".toList) 95 90 100000000000
      true).1.lastSent ("cpu".toList) = some 100000000000 :=
  (handleMetric_inactive_crossing sampleManagerIdle sampleConfig ("cpu".toList) 95 90
    100000000000 (by decide) (by decide) (by decide) (by decide) (by decide)).2.2.2.1

/-- An Active metric whose sampled value stays at or above the hysteresis
band `threshold * resetFactor` is left untouched by `handleMetric`, with no
delivery attempt. -/
theorem handleMetric_active_noop (m : Manager) (cfg : TelegramConfig) (metric : List Char)
    (value threshold : ℚ) (now : ℤ) (ok : Bool)
    (hthr : 0 < threshold)
    (hact : (m.alertActive metric).getD false = true)
    (hv : threshold * resetFactor ≤ value) :
    handleMetric m cfg metric value threshold now ok = (m, 0) := by
  have hrfpos : (0 : ℚ) < resetFactor := by norm_num [resetFactor]
  have hvpos : 0 < value := lt_of_lt_of_le (mul_pos hthr hrfpos) hv
  have hguard : ¬(threshold ≤ 0 ∨ value ≤ 0) := by
    push_neg
    exact ⟨hthr, hvpos⟩
  unfold handleMetric
  rw [if_neg hguard]
  dsimp only [metricState]
  by_cases hge : threshold ≤ value
  · rw [if_pos hge, if_neg]
    rintro ⟨h1, -⟩
    rw [hact] at h1
    cases h1
  · rw [if_neg hge, if_neg]
    rintro ⟨-, h2⟩
    exact absurd h2 (not_lt.mpr hv)

/-- C4: for an Active metric with positive threshold, no delivery is attempted
and the state is unchanged over any sequence of ticks whose values stay at or
above threshold × 0.9; and one tick with a value below threshold × 0.9 clears
the metric (entry removed) with zero delivery attempts, i.e. silently. -/
theorem handleMetric_active_hysteresis (m : Manager) (cfg : TelegramConfig)
    (metric : List Char) (threshold : ℚ)
    (hthr : 0 < threshold)
    (hact : (m.alertActive metric).getD false = true) :
    (∀ events : List (ℚ × ℤ × Bool), (∀ e ∈ events, threshold * resetFactor ≤ e.1) →
      handleMetricSeq m cfg metric threshold events = (m, 0)) ∧
    (∀ (value : ℚ) (now : ℤ) (ok : Bool), value < threshold * resetFactor →
      handleMetric m cfg metric value threshold now ok = (clearAlert m metric, 0) ∧
      (clearAlert m metric).alertActive metric = none) := by
  constructor
  · intro events hall
    induction events with
    | nil => rfl
    | cons e rest ih =>
      obtain ⟨v, now, ok⟩ := e
      have h1 := handleMetric_active_noop m cfg metric v threshold now ok hthr hact
        (hall _ (List.mem_cons_self _ _))
      have h2 := ih (fun e he => hall e (List.mem_cons_of_mem _ he))
      unfold handleMetricSeq
      rw [h1]
      dsimp only
      rw [h2]
      rfl
  · intro value now ok hlt
    have hclear : handleMetric m cfg metric value threshold now ok = (clearAlert m metric, 0) := by
      by_cases hvpos : value ≤ 0
      · unfold handleMetric
        rw [if_pos (Or.inr hvpos)]
      · have hguard : ¬(threshold ≤ 0 ∨ value ≤ 0) := by
          push_neg
          exact ⟨hthr, lt_of_not_le hvpos⟩
        have hband : threshold * resetFactor < threshold := by
          have h1 : resetFactor < 1 := by norm_num [resetFactor]
          calc threshold * resetFactor < threshold * 1 := by
                exact mul_lt_mul_of_pos_left h1 hthr
            _ = threshold := mul_one threshold
        have hnge : ¬ threshold ≤ value := not_le.mpr (lt_trans hlt hband)
        unfold handleMetric
        rw [if_neg hguard]
        dsimp only [metricState]
        rw [if_neg hnge, if_pos ⟨hact, hlt⟩]
    exact ⟨hclear, by simp [clearAlert, updateMetricState]⟩

/-- C4 witness: the Active cpu metric (threshold 90) drops to 50, below the
hysteresis band 81; the step clears the alert and makes no delivery
attempt. -/
theorem handleMetric_active_hysteresis_witness :
    handleMetric sampleManagerActive sampleConfig ("cpu".toList) 50 90 0 true =
      (clearAlert sampleManagerActive ("cpu".toList), 0) :=
  ((handleMetric_active_hysteresis sampleManagerActive sampleConfig ("cpu".toList) 90
    (by decide) (by decide)).2 50 0 true (by norm_num [resetFactor])).1

/-- C9: no operation removes a last-alert timestamp — a deactivating
`updateMetricState`, `clearAlert` and `UpdateTelegramConfig` all leave
`lastSent` exactly as it was — and consequently a metric cleared after a
successful alert makes no delivery attempt on a new threshold crossing within
the cooldown of that alert. -/
theorem lastSent_never_removed :
    (∀ (m : Manager) (metric : List Char) (ts : ℤ),
      (updateMetricState m metric false ts).lastSent = m.lastSent) ∧
    (∀ (m : Manager) (metric : List Char), (clearAlert m metric).lastSent = m.lastSent) ∧
    (∀ (m : Manager) (cfg : TelegramConfig), (UpdateTelegramConfig m cfg).lastSent = m.lastSent) ∧
    (∀ (m : Manager) (cfg : TelegramConfig) (metric : List Char) (value threshold : ℚ)
      (now t : ℤ) (ok : Bool),
      m.lastSent metric = some t →
      (m.alertActive metric).getD false = false →
      0 < threshold → threshold ≤ value →
      now - t < (if cfg.cooldown ≤ 0 then defaultCooldown else cfg.cooldown) →
      handleMetric m cfg metric value threshold now ok = (m, 0)) := by
  refine ⟨fun m metric ts => rfl, fun m metric => rfl, fun m cfg => rfl, ?_⟩
  intro m cfg metric value threshold now t ok hsome hact hthr hge hcd
  have hguard : ¬(threshold ≤ 0 ∨ value ≤ 0) := by
    push_neg
    exact ⟨hthr, lt_of_lt_of_le hthr hge⟩
  unfold handleMetric
  rw [if_neg hguard]
  dsimp only [metricState]
  rw [if_pos hge, if_neg]
  rintro ⟨-, h2⟩
  rw [hsome] at h2
  exact absurd h2 (not_le.mpr hcd)

/-- C9 witness: the cleared cpu metric (last successful alert at time 5)
crosses the threshold again at time 10, well inside the one-minute cooldown;
no delivery attempt is made and the state is unchanged. -/
theorem lastSent_never_removed_witness :
    handleMetric sampleManagerCleared sampleConfig ("cpu".toList) 95 90 10 true =
      (sampleManagerCleared, 0) :=
  lastSent_never_removed.2.2.2 sampleManagerCleared sampleConfig ("cpu".toList) 95 90 10 5
    true (by decide) (by decide) (by decide) (by decide) (by decide)

/-- C10: `SendTelegramTest` never consults the Enabled flag (its result is the
same for either value of the flag); it returns the "configuration incomplete"
error exactly when the bot token or chat id is empty, and otherwise hands the
trimmed message (or the default test message) to the delivery call. -/
theorem sendTelegramTest_ignores_enabled (m : Manager) (message : List Char) :
    (∀ b : Bool,
      SendTelegramTest { m with telegram := { m.telegram with enabled := b } } message =
        SendTelegramTest m message) ∧
    ((m.telegram.botToken = [] ∨ m.telegram.chatID = []) ↔
      SendTelegramTest m message = .error ("telegram configuration incomplete".toList)) ∧
    (m.telegram.botToken ≠ [] → m.telegram.chatID ≠ [] →
      SendTelegramTest m message =
        .ok (if trimSpace message = [] then "AdGuard Home test notification".toList
             else trimSpace message)) := by
  refine ⟨fun b => rfl, ?_, ?_⟩
  · constructor
    · intro h
      unfold SendTelegramTest
      rw [if_pos h]
    · intro h
      by_contra hguard
      unfold SendTelegramTest at h
      rw [if_neg hguard] at h
      cases h
  · intro h1 h2
    unfold SendTelegramTest
    rw [if_neg (by tauto)]

/-- C10 witness: with delivery disabled but credentials present, the test send
still reaches the delivery call, carrying the caller's trimmed message. -/
theorem sendTelegramTest_ignores_enabled_witness :
    SendTelegramTest sampleManagerDisabled ("ping".toList) = .ok ("ping".toList) := by
  have h := (sendTelegramTest_ignores_enabled sampleManagerDisabled ("ping".toList)).2.2
    (by decide) (by decide)
  exact h.trans (by rfl)

/-- C8: the percentage formatter renders NaN and both infinities as the dash
placeholder, clamps negative finite values to 0 (rendering "0%"), renders
finite non-negative values through the one-decimal trailing-zero-stripping
float formatter, with 90 rendering as "90%" and 95.5 (the rational 191/2) as
"95.5%"; and the alert message composed for cpu value 95.5 against threshold
90 contains "95.5%", "90%" and the headline "CPU usage exceeded threshold". -/
theorem formatPercentage_rendering :
    formatPercentage .nan = "-".toList ∧
    (∀ b : Bool, formatPercentage (.inf b) = "-".toList) ∧
    (∀ q : ℚ, q < 0 → formatPercentage (.finite q) = "0%".toList) ∧
    (∀ q : ℚ, 0 ≤ q → formatPercentage (.finite q) = formatFloat q ++ "%".toList) ∧
    formatPercentage (.finite 90) = "90%".toList ∧
    formatPercentage (.finite (mkRat 191 2)) = "95.5%".toList ∧
    "95.5%".toList <:+: composeAlertMessage sampleConfig ("cpu".toList)
      (.finite (mkRat 191 2)) (.finite 90) sampleInfo ∧
    "90%".toList <:+: composeAlertMessage sampleConfig ("cpu".toList)
      (.finite (mkRat 191 2)) (.finite 90) sampleInfo ∧
    "CPU usage exceeded threshold".toList <:+: composeAlertMessage sampleConfig
      ("cpu".toList) (.finite (mkRat 191 2)) (.finite 90) sampleInfo := by
  refine ⟨by decide, fun b => by cases b <;> decide, ?_, ?_, by decide, by decide,
    by decide, by decide, by decide⟩
  · intro q h
    show formatFloat (if q < 0 then 0 else q) ++ "%".toList = "0%".toList
    rw [if_pos h]
    decide
  · intro q h
    show formatFloat (if q < 0 then 0 else q) ++ "%".toList = formatFloat q ++ "%".toList
    rw [if_neg (not_lt.mpr h)]

/-- C8 witness: a negative reading (the rational -3) is clamped and rendered
as "0%". -/
theorem formatPercentage_rendering_witness :
    formatPercentage (.finite (mkRat (-3) 1)) = "0%".toList :=
  formatPercentage_rendering.2.2.1 (mkRat (-3) 1) (by decide)

end Notifications
